import Mathlib

/-
  Shallow embedding of the KomoChat repository (Chat.py, KomoChat.py,
  Komo_Chat.py, server.py) for checking the natural-language specification.

  Network and library effects (socket results, HTTP results, json parsing,
  UPnP, random room-id generation) are modelled as explicit environment
  parameters; each embedded function returns, besides its result, a trace of
  the externally visible operations it performed, so that ordering and
  resource claims can be stated.
-/

namespace KomoChat

/-! ## Connection selection (Chat.py, KomoChat.smart_connect, lines 168-203)

The four connection methods of smart_connect, at the granularity the spec
describes them: method 1 is start_direct_client, method 2 is
try_upnp_port_forward plus start_direct_host, method 3 is connect_to_relay
with the caller-supplied room id, method 4 generates a fresh room id and
retries connect_to_relay with it. -/

inductive Method where
  | directConnect
  | upnpListen
  | relaySupplied (roomId : String)
  | relayGenerated (roomId : String)
deriving DecidableEq, Repr

/-- Outcomes of the fallible collaborators of smart_connect:
directOk is the result of start_direct_client, upnpOk of
try_upnp_port_forward, hostOk of start_direct_host, relayOk of
connect_to_relay for a given room id and is_host flag, and genId is the
room id drawn by random.choices in method 4. -/
structure ConnEnv where
  directOk : Bool
  upnpOk : Bool
  hostOk : Bool
  relayOk : String → Bool → Bool
  genId : String

/-- Method 4 of smart_connect (Chat.py lines 192-201): if hosting, generate
a room id and retry connect_to_relay once with is_host hardcoded to True. -/
def sc_method4 (env : ConnEnv) (is_host : Bool) (tr : List Method) :
    Bool × List Method :=
  if is_host then
    (env.relayOk env.genId true, tr ++ [Method.relayGenerated env.genId])
  else
    (false, tr)

/-- Method 3 of smart_connect (Chat.py lines 186-190): if a room id was
supplied, try connect_to_relay with it; otherwise fall through. -/
def sc_method3 (env : ConnEnv) (room_id : Option String) (is_host : Bool)
    (tr : List Method) : Bool × List Method :=
  match room_id with
  | some rid =>
      if env.relayOk rid is_host then
        (true, tr ++ [Method.relaySupplied rid])
      else
        sc_method4 env is_host (tr ++ [Method.relaySupplied rid])
  | none => sc_method4 env is_host tr

/-- Method 2 of smart_connect (Chat.py lines 179-184): if hosting, try UPnP
port forwarding and, only when that worked, listen for a direct inbound
connection; on either failing, fall through to method 3. -/
def sc_method2 (env : ConnEnv) (room_id : Option String) (is_host : Bool)
    (tr : List Method) : Bool × List Method :=
  if is_host then
    if env.upnpOk && env.hostOk then
      (true, tr ++ [Method.upnpListen])
    else
      sc_method3 env room_id is_host (tr ++ [Method.upnpListen])
  else
    sc_method3 env room_id is_host tr

/-- KomoChat.smart_connect (Chat.py lines 168-203), returning its boolean
result and the trace of methods attempted, in order.  A present target_ip
models a truthy target_ip argument. -/
def smart_connect (env : ConnEnv) (target_ip : Option String)
    (room_id : Option String) (is_host : Bool) : Bool × List Method :=
  match target_ip with
  | some _ =>
      if !is_host then
        if env.directOk then
          (true, [Method.directConnect])
        else
          sc_method2 env room_id is_host [Method.directConnect]
      else
        sc_method2 env room_id is_host []
  | none => sc_method2 env room_id is_host []

/-- Position of a method in the documented strict order. -/
def rank : Method → Nat
  | Method.directConnect => 1
  | Method.upnpListen => 2
  | Method.relaySupplied _ => 3
  | Method.relayGenerated _ => 4

/-- Whether a method attempt succeeds under the given environment, for a
caller with the given is_host flag. -/
def msucceeds (env : ConnEnv) (is_host : Bool) : Method → Bool
  | Method.directConnect => env.directOk
  | Method.upnpListen => env.upnpOk && env.hostOk
  | Method.relaySupplied r => env.relayOk r is_host
  | Method.relayGenerated g => env.relayOk g true

/-- The applicability guard the spec states for each method. -/
def attemptGuard (target_ip : Option String) (room_id : Option String)
    (is_host : Bool) (env : ConnEnv) : Method → Bool
  | Method.directConnect => target_ip.isSome && !is_host
  | Method.upnpListen => is_host
  | Method.relaySupplied r => room_id == some r
  | Method.relayGenerated g => is_host && (g == env.genId)

/-- Environment witnessing that a hosting caller with a supplied room id
whose relay attempt failed still generates a fresh id: no direct path
works, the supplied room ROOM is rejected by the relay, and the freshly
generated id NEWID123 is accepted. -/
def cEnvC3 : ConnEnv :=
  { directOk := false
    upnpOk := false
    hostOk := false
    relayOk := fun r _ => r == "NEWID123"
    genId := "NEWID123" }

/-! ## The chat session loops (Chat.py, KomoChat.start_chat_session lines
244-299 and KomoChat.receive_thread_func lines 301-313)

The two loops share the running flag and the transport.  A SessionState
records the flag, whether each loop is still alive, and how many times the
transport close operation has been invoked.  Each SessionEvent is one
observable iteration of one of the loops; an event whose guard does not
hold leaves the state unchanged, so any interleaving is a plain list of
events. -/

/-- The whitespace set of the Python str.strip method (ASCII part). -/
def isPySpace (c : Char) : Bool :=
  c == ' ' || c == '\t' || c == '\n' || c == '\r' || c == '\x0b' || c == '\x0c'

/-- Python str.strip on ASCII input. -/
def pyStrip (s : String) : String :=
  String.mk (((s.toList.dropWhile isPySpace).reverse.dropWhile isPySpace).reverse)

/-- Python str.lower on one ASCII character. -/
def lowerChar (c : Char) : Char :=
  if c.isUpper then Char.ofNat (c.toNat + 32) else c

/-- Python str.lower on ASCII input. -/
def pyLower (s : String) : String :=
  String.mk (s.toList.map lowerChar)

structure SessionState where
  running : Bool
  fgAlive : Bool
  bgAlive : Bool
  closeCount : Nat
deriving DecidableEq, Repr

def initSession : SessionState :=
  { running := true, fgAlive := true, bgAlive := true, closeCount := 0 }

inductive SessionEvent where
  /-- One iteration of the input loop: the user typed this raw line and, if
  the line is an ordinary message, send_message returned sendOk. -/
  | fgInput (line : String) (sendOk : Bool)
  /-- The input loop re-checks the running flag and finds it false. -/
  | fgStop
  /-- One iteration of the receive thread: receive_message returned m. -/
  | bgRecv (m : Option String)
  /-- The receive thread re-checks the running flag and finds it false. -/
  | bgStop
deriving DecidableEq, Repr

/-- Is the lowercased, stripped line one of the purely local commands of
Chat.py lines 272-289 (help, clear, time, status)? -/
def isLocalCmdChat (low : String) : Bool :=
  low == "/help" || low == "/clear" || low == "/time" || low == "/status"

/-- One step of the session state machine, translated from the loop bodies
in Chat.py.  Notably, no branch of either loop ever invokes close on the
socket or the peer socket, so no event increments closeCount; and a failed
send breaks the input loop without clearing the running flag (Chat.py
lines 291-293). -/
def sessionStep (st : SessionState) : SessionEvent → SessionState
  | SessionEvent.fgInput line sendOk =>
      if st.fgAlive && st.running then
        let low := pyLower (pyStrip line)
        if low == "/exit" then
          { st with running := false, fgAlive := false }
        else if isLocalCmdChat low then
          st
        else if sendOk then
          st
        else
          { st with fgAlive := false }
      else st
  | SessionEvent.fgStop =>
      if st.fgAlive && !st.running then { st with fgAlive := false } else st
  | SessionEvent.bgRecv m =>
      if st.bgAlive && st.running then
        match m with
        | some s =>
            if s == "/exit" then { st with running := false, bgAlive := false }
            else st
        | none => st
      else st
  | SessionEvent.bgStop =>
      if st.bgAlive && !st.running then { st with bgAlive := false } else st

def runSession (es : List SessionEvent) : SessionState :=
  es.foldl sessionStep initSession

/-! ## The foreground command dispatch of KomoChat.py chat_session
(lines 335-390)

For one raw input line, what the loop body writes to the socket and whether
the loop continues.  The commands, in source order, are /exit, /clear,
/help, /time, /emoji and /status; /exit sends the reserved control literal
before breaking, all the other commands send nothing.  pyStrip models the
input(...).strip() call and pyLower models .lower(); both agree with
Python on ASCII input. -/

def chatStep (raw : String) : List String × Bool :=
  let message := pyStrip raw
  let low := pyLower message
  if low == "/exit" then (["/exit"], false)
  else if low == "/clear" then ([], true)
  else if low == "/help" then ([], true)
  else if low == "/time" then ([], true)
  else if low == "/emoji" then ([], true)
  else if low == "/status" then ([], true)
  else ([message], true)

/-- The foreground command dispatch of Chat.py start_chat_session (lines
263-299), same conventions as chatStep.  Its command set, in source order,
is /exit, /help, /clear, /time and /status; there is no /emoji command in
this variant, so an /emoji input falls through to send_message and is
transmitted as ordinary text. -/
def chatStepChat (raw : String) : List String × Bool :=
  let message := pyStrip raw
  let low := pyLower message
  if low == "/exit" then (["/exit"], false)
  else if low == "/help" then ([], true)
  else if low == "/clear" then ([], true)
  else if low == "/time" then ([], true)
  else if low == "/status" then ([], true)
  else ([message], true)

/-! ## Relay candidate iteration (Chat.py, KomoChat.connect_to_relay,
lines 101-143)

Each candidate relay server yields one outcome: either some step of
connect/send/recv raised (timeout, refusal, reset - the bare except path
that just continues), or one response payload was received.  The embedding
returns the boolean result together with the number of socket.close calls
performed. -/

inductive RelayOutcome where
  /-- connect, send or recv raised: the except branch continues to the next
  candidate without closing. -/
  | connFail
  /-- recv returned this decoded payload. -/
  | response (s : String)
deriving DecidableEq, Repr

/-- Python substring membership on character lists: needle occurs at the
head of the haystack. -/
def leadsWith : List Char → List Char → Bool
  | [], _ => true
  | _ :: _, [] => false
  | n :: ns, h :: hs => n == h && leadsWith ns hs

/-- Python substring membership on character lists: needle occurs somewhere
in the haystack. -/
def occursIn (needle : List Char) : List Char → Bool
  | [] => leadsWith needle []
  | h :: hs => leadsWith needle (h :: hs) || occursIn needle hs

/-- The Python expression (needle in hay) on strings. -/
def strContains (hay needle : String) : Bool :=
  occursIn needle.toList hay.toList

/-- One pass over the candidate list of connect_to_relay: a response
containing the success marker returns True at once; any other response is
closed and the loop advances; a raised connect/send/recv advances without
closing; an exhausted list prints a failure and returns False. -/
def connect_to_relay : List RelayOutcome → Bool × Nat
  | [] => (false, 0)
  | RelayOutcome.connFail :: rest => connect_to_relay rest
  | RelayOutcome.response s :: rest =>
      if strContains s "success" then (true, 0)
      else
        let r := connect_to_relay rest
        (r.1, r.2 + 1)

/-- A candidate outcome that completes the session. -/
def isSuccessOut : RelayOutcome → Bool
  | RelayOutcome.connFail => false
  | RelayOutcome.response s => strContains s "success"

/-- A candidate outcome that reached a response which lacks the marker:
exactly the outcomes the source closes. -/
def isFailResp : RelayOutcome → Bool
  | RelayOutcome.connFail => false
  | RelayOutcome.response s => !strContains s "success"

/-! ## Local address resolution (get_local_ip: Chat.py lines 44-52,
KomoChat.py lines 42-51, Komo_Chat.py lines 41-50, server.py lines 21-30)

The try block performs three fallible steps: create the UDP socket,
connect it to 8.8.8.8:80 to force route selection, and read the bound
local address from getsockname.  Any raise lands in the bare except, which
returns the loopback literal.  The embedding is a total function, matching
the spec sentence that the operation never raises. -/

structure LocalIpEnv where
  mkSock : Except String Unit
  connectRoute : Except String Unit
  sockNameIp : Except String String

def exceptFailed {α : Type} : Except String α → Bool
  | Except.error _ => true
  | Except.ok _ => false

def get_local_ip (env : LocalIpEnv) : String :=
  match env.mkSock with
  | Except.error _ => "127.0.0.1"
  | Except.ok _ =>
    match env.connectRoute with
    | Except.error _ => "127.0.0.1"
    | Except.ok _ =>
      match env.sockNameIp with
      | Except.error _ => "127.0.0.1"
      | Except.ok ip => ip

/-- Environment in which the route-forcing connect raises (no route). -/
def envNoRoute : LocalIpEnv :=
  { mkSock := Except.ok ()
    connectRoute := Except.error "Network is unreachable"
    sockNameIp := Except.error "socket is not connected" }

/-! ## Public address resolution (get_public_ip: Chat.py lines 54-58 and
KomoChat.py lines 53-61)

Both variants consist solely of requests.get calls to what-is-my-IP HTTP
endpoints inside try/except; a None from the environment models a raise
(timeout or any request failure).  The trace records every network
operation performed so that the presence or absence of UDP discovery
traffic is provable. -/

inductive NetOp where
  | udpQuery (host : String) (port : Nat)
  | httpGet (url : String)
deriving DecidableEq, Repr

def isUdp : NetOp → Bool
  | NetOp.udpQuery _ _ => true
  | NetOp.httpGet _ => false

structure PublicIpEnv where
  http : String → Option String

/-- Chat.py get_public_ip: one request to api.ipify.org, None on failure. -/
def get_public_ip_chat (env : PublicIpEnv) : Option String × List NetOp :=
  (env.http "https://api.ipify.org", [NetOp.httpGet "https://api.ipify.org"])

/-- KomoChat.py get_public_ip: api.ipify.org, then api64.ipify.org, then
None. -/
def get_public_ip (env : PublicIpEnv) : Option String × List NetOp :=
  match env.http "https://api.ipify.org" with
  | some ip => (some ip, [NetOp.httpGet "https://api.ipify.org"])
  | none =>
    match env.http "https://api64.ipify.org" with
    | some ip =>
        (some ip, [NetOp.httpGet "https://api.ipify.org",
                   NetOp.httpGet "https://api64.ipify.org"])
    | none =>
        (none, [NetOp.httpGet "https://api.ipify.org",
                NetOp.httpGet "https://api64.ipify.org"])

/-- Environment in which every HTTP endpoint is unreachable. -/
def httpDown : PublicIpEnv := { http := fun _ => none }

/-! ## The port prompt (start_sender in KomoChat.py lines 185-197 and
start_receiver in Komo_Chat.py lines 137-150, identical logic)

The prompt strips the entry, defaults an empty entry to 9999, otherwise
applies int(...) and accepts when 1 <= port <= 65535; a ValueError or an
out-of-range value re-prompts.  pyParseInt models the Python int builtin on
an already-stripped string: an optional sign followed by a nonempty digit
sequence in which single underscores may appear between digits. -/

/-- Digits after the first, allowing a single underscore between digits,
accumulating the value. -/
def pyDigitsAux : Nat → List Char → Option Nat
  | acc, [] => some acc
  | _, ['_'] => none
  | acc, '_' :: d :: ds =>
      if d.isDigit then pyDigitsAux (10 * acc + (d.toNat - 48)) ds else none
  | acc, c :: cs =>
      if c.isDigit then pyDigitsAux (10 * acc + (c.toNat - 48)) cs else none

/-- A nonempty digit sequence (with embedded underscores) starting with a
digit. -/
def pyDigits : List Char → Option Nat
  | [] => none
  | c :: cs => if c.isDigit then pyDigitsAux (c.toNat - 48) cs else none

/-- The Python int builtin on a stripped decimal string. -/
def pyParseInt (s : String) : Option Int :=
  match s.toList with
  | [] => none
  | '+' :: rest => (pyDigits rest).map Int.ofNat
  | '-' :: rest => (pyDigits rest).map (fun n => -(Int.ofNat n))
  | l => (pyDigits l).map Int.ofNat

/-- One round of the port prompt on one entered line: some port when the
entry is accepted and the loop exits, none when the loop re-prompts. -/
def portPromptStep (s0 : String) : Option Nat :=
  let s := pyStrip s0
  if s == "" then some 9999
  else
    match pyParseInt s with
    | some n => if 1 ≤ n ∧ n ≤ 65535 then some n.toNat else none
    | none => none

/-! ## Relay-path message parsing (Chat.py, KomoChat.receive_message,
lines 217-242, the self.socket branch)

The received bytes decode to a string; json.loads is an external library
call modelled as an environment function returning the parsed value, or
none when it raises ValueError.  The try block also covers the subsequent
msg_data.get calls, so a parsed non-object value raises AttributeError
inside the same block and the except branch returns the raw text, exactly
as a failed parse does. -/

inductive PyJson where
  | jnull
  | jbool (b : Bool)
  | jnum (n : Int)
  | jstr (s : String)
  | jarr (xs : List PyJson)
  | jobj (fields : List (String × PyJson))

/-- dict.get on the field list of a parsed JSON object. -/
def dictGet (fields : List (String × PyJson)) (k : String) : Option PyJson :=
  (fields.find? (fun kv => kv.1 == k)).map (fun kv => kv.2)

/-- The condition msg_data.get("type") == "message". -/
def typeIsMessage (fields : List (String × PyJson)) : Bool :=
  match dictGet fields "type" with
  | some (PyJson.jstr "message") => true
  | _ => false

def isObjPy : PyJson → Bool
  | PyJson.jobj _ => true
  | _ => false

/-- receive_message on the relay branch, for one nonempty or empty decoded
payload; empty data is falsy and falls through to the final return None,
like a timeout does. -/
def receive_message_relay (loads : String → Option PyJson) (data : String) :
    Option PyJson :=
  if data == "" then none
  else
    match loads data with
    | none => some (PyJson.jstr data)
    | some (PyJson.jobj fields) =>
        if typeIsMessage fields then
          some ((dictGet fields "content").getD (PyJson.jstr ""))
        else
          none
    | some _ => some (PyJson.jstr data)

/-- A json.loads oracle defined at the single payload 42, consistent with
the Python json module: the text 42 parses to the number 42. -/
def loadsNum : String → Option PyJson :=
  fun s => if s == "42" then some (PyJson.jnum 42) else none

/-- A json.loads oracle defined at the single payload of an empty JSON
object. -/
def loadsEmptyObj : String → Option PyJson :=
  fun s => if s == "\x7b\x7d" then some (PyJson.jobj []) else none

/-! ## The relay server bookkeeping (server.py, ChatServer, lines 32-144)

Clients are identified by socket ids.  accept_connections appends the new
client and its nickname (lines 76-77); remove_client (lines 130-144) looks
the client up, reads the nickname at the same index, and removes the first
occurrence of each by value, exactly as list.remove does; a client not in
the list is left alone.  The nicknames[index] subscript can raise
IndexError, modelled by the error case. -/

structure ServerState where
  clients : List Nat
  nicknames : List String
deriving DecidableEq, Repr

def accept_one (st : ServerState) (c : Nat) (nick : String) : ServerState :=
  { clients := st.clients ++ [c], nicknames := st.nicknames ++ [nick] }

def remove_client (st : ServerState) (c : Nat) : Except Unit ServerState :=
  if st.clients.contains c then
    match st.nicknames.get? (st.clients.indexOf c) with
    | some nick =>
        Except.ok { clients := st.clients.erase c
                    nicknames := st.nicknames.erase nick }
    | none => Except.error ()
  else
    Except.ok st

def isOkE : Except Unit ServerState → Bool
  | Except.ok _ => true
  | Except.error _ => false

/-- The operations that mutate the two lists: a registration in
accept_connections, or a remove_client call from handle_client or from a
broadcast send failure. -/
inductive ServerOp where
  | join (c : Nat) (nick : String)
  | disconnect (c : Nat)
deriving DecidableEq, Repr

def applyOp (st : ServerState) : ServerOp → Except Unit ServerState
  | ServerOp.join c nick => Except.ok (accept_one st c nick)
  | ServerOp.disconnect c => remove_client st c

def runOps : List ServerOp → ServerState → Except Unit ServerState
  | [], st => Except.ok st
  | op :: ops, st =>
      match applyOp st op with
      | Except.ok st1 => runOps ops st1
      | Except.error e => Except.error e

def lenEq (st : ServerState) : Prop :=
  st.clients.length = st.nicknames.length

/-! ## Theorems -/

/-- No step of either session loop changes the close counter: Chat.py never
invokes close on the socket or the peer socket inside start_chat_session or
receive_thread_func. -/
theorem sessionStep_closeCount (st : SessionState) (e : SessionEvent) :
    (sessionStep st e).closeCount = st.closeCount := by
  cases e with
  | fgInput line sendOk => simp only [sessionStep]; split_ifs <;> rfl
  | fgStop => simp only [sessionStep]; split_ifs <;> rfl
  | bgRecv m =>
      cases m with
      | none => simp only [sessionStep]; split_ifs <;> rfl
      | some s => simp only [sessionStep]; split_ifs <;> rfl
  | bgStop => simp only [sessionStep]; split_ifs <;> rfl

theorem runSession_closeCount_aux (es : List SessionEvent) (st : SessionState) :
    (es.foldl sessionStep st).closeCount = st.closeCount := by
  induction es generalizing st with
  | nil => rfl
  | cons e es ih => rw [List.foldl_cons, ih, sessionStep_closeCount]

/-- C1: the claim says that when either chat loop terminates the other also
terminates and the socket is closed exactly once.  On the code this fails:
along every interleaving of the two loops of Chat.py the transport close
operation is invoked zero times, never once; in particular after the peer
sends the end-of-session literal both loops do stop, yet the close count of
the final state is 0. -/
theorem chat_session_transport_never_closed :
    (∀ es : List SessionEvent, (runSession es).closeCount = 0)
    ∧ runSession [SessionEvent.bgRecv (some "/exit"), SessionEvent.fgStop]
        = { running := false, fgAlive := false, bgAlive := false,
            closeCount := 0 } :=
  ⟨fun es => runSession_closeCount_aux es initSession, by decide⟩

set_option maxHeartbeats 1000000 in
theorem sc_chain (env : ConnEnv) (target_ip room_id : Option String)
    (is_host : Bool) :
    ((smart_connect env target_ip room_id is_host).2.map rank).Chain' (· < ·) := by
  rcases env with ⟨dOk, uOk, hOk, rOk, gId⟩
  cases target_ip <;> cases room_id <;> cases is_host <;>
    cases dOk <;> cases uOk <;> cases hOk <;>
    simp only [smart_connect, sc_method2, sc_method3, sc_method4] <;>
    split_ifs <;> simp [rank]

set_option maxHeartbeats 1000000 in
theorem sc_dropLast (env : ConnEnv) (target_ip room_id : Option String)
    (is_host : Bool) :
    (smart_connect env target_ip room_id is_host).2.dropLast.all
        (fun m => !(msucceeds env is_host m)) = true := by
  rcases env with ⟨dOk, uOk, hOk, rOk, gId⟩
  cases target_ip <;> cases room_id <;> cases is_host <;>
    cases dOk <;> cases uOk <;> cases hOk <;>
    simp only [smart_connect, sc_method2, sc_method3, sc_method4] <;>
    split_ifs <;> simp_all [msucceeds]

set_option maxHeartbeats 1000000 in
theorem sc_result_any (env : ConnEnv) (target_ip room_id : Option String)
    (is_host : Bool) :
    (smart_connect env target_ip room_id is_host).1
      = (smart_connect env target_ip room_id is_host).2.any
          (msucceeds env is_host) := by
  rcases env with ⟨dOk, uOk, hOk, rOk, gId⟩
  cases target_ip <;> cases room_id <;> cases is_host <;>
    cases dOk <;> cases uOk <;> cases hOk <;>
    simp only [smart_connect, sc_method2, sc_method3, sc_method4] <;>
    split_ifs <;> simp_all [msucceeds]

set_option maxHeartbeats 1000000 in
theorem sc_guard (env : ConnEnv) (target_ip room_id : Option String)
    (is_host : Bool) :
    (smart_connect env target_ip room_id is_host).2.all
        (attemptGuard target_ip room_id is_host env) = true := by
  rcases env with ⟨dOk, uOk, hOk, rOk, gId⟩
  cases target_ip <;> cases room_id <;> cases is_host <;>
    cases dOk <;> cases uOk <;> cases hOk <;>
    simp only [smart_connect, sc_method2, sc_method3, sc_method4] <;>
    split_ifs <;> simp_all [attemptGuard]

/-- C2: smart_connect attempts the four methods in the documented strict
order, each only under its applicability condition, never attempts a
method after one has succeeded (every attempted method except possibly the
last one failed), and returns True exactly when some attempted method
succeeded. -/
theorem smart_connect_first_success (env : ConnEnv)
    (target_ip room_id : Option String) (is_host : Bool) :
    (((smart_connect env target_ip room_id is_host).2.map rank).Chain' (· < ·))
    ∧ ((smart_connect env target_ip room_id is_host).2.dropLast.all
        (fun m => !(msucceeds env is_host m)) = true)
    ∧ ((smart_connect env target_ip room_id is_host).1
        = (smart_connect env target_ip room_id is_host).2.any
            (msucceeds env is_host))
    ∧ ((smart_connect env target_ip room_id is_host).2.all
        (attemptGuard target_ip room_id is_host env) = true) :=
  ⟨sc_chain env target_ip room_id is_host,
   sc_dropLast env target_ip room_id is_host,
   sc_result_any env target_ip room_id is_host,
   sc_guard env target_ip room_id is_host⟩

/-- C3 counterexample: a hosting caller that supplied the room id ROOM,
whose relay attempt with ROOM failed, still reaches method 4 and generates
the fresh id NEWID123 - refuting the claim that the fallback runs only
when no session id was supplied. -/
theorem smart_connect_gen_cex :
    smart_connect cEnvC3 none (some "ROOM") true
      = (true, [Method.upnpListen, Method.relaySupplied "ROOM",
                Method.relayGenerated "NEWID123"]) := by decide

/-- C3 (amended): smart_connect generates a fresh session id and retries
the relay exactly when the caller is hosting and every earlier applicable
method failed, regardless of whether a session id was supplied. -/
theorem smart_connect_gen_iff (env : ConnEnv)
    (target_ip room_id : Option String) (is_host : Bool) :
    (smart_connect env target_ip room_id is_host).2.contains
        (Method.relayGenerated env.genId)
      = (is_host && !(env.upnpOk && env.hostOk)
         && (match room_id with
             | some r => !env.relayOk r true
             | none => true)) := by
  rcases env with ⟨dOk, uOk, hOk, rOk, gId⟩
  cases target_ip <;> cases room_id <;> cases is_host <;>
    cases dOk <;> cases uOk <;> cases hOk <;>
    simp only [smart_connect, sc_method2, sc_method3, sc_method4] <;>
    split_ifs <;> simp_all [List.contains]

/-- C4 counterexample: a single candidate whose connect or read raises
(timeout, refusal) is advanced past without any close call - the run ends
with zero closes although one failing candidate was tried, refuting the
claim that every non-success outcome closes that connection. -/
theorem connect_to_relay_noclose_cex :
    connect_to_relay [RelayOutcome.connFail] = (false, 0)
    ∧ ([RelayOutcome.connFail].countP (fun o => !isSuccessOut o)) = 1 :=
  ⟨rfl, rfl⟩

/-- C4 (amended): connect_to_relay returns True exactly when some candidate
yields a response containing the success marker; the number of close calls
equals the number of marker-less responses among the candidates tried
before the first success, so raised connections (timeout, refusal) advance
without closing, and exhausting all candidates (any = false) yields
failure. -/
theorem connect_to_relay_spec (outs : List RelayOutcome) :
    (connect_to_relay outs).1 = outs.any isSuccessOut
    ∧ (connect_to_relay outs).2
        = (outs.takeWhile (fun o => !isSuccessOut o)).countP isFailResp := by
  induction outs with
  | nil => exact ⟨rfl, rfl⟩
  | cons o rest ih =>
      cases o with
      | connFail =>
          simp [connect_to_relay, isSuccessOut, isFailResp, List.takeWhile,
                List.countP_cons, ih.1, ih.2]
      | response s =>
          by_cases hs : strContains s "success" = true
          · simp [connect_to_relay, isSuccessOut, isFailResp, List.takeWhile, hs]
          · simp only [Bool.not_eq_true] at hs
            simp [connect_to_relay, isSuccessOut, isFailResp, List.takeWhile,
                  List.countP_cons, hs, ih.1, ih.2]

/-- C5: get_local_ip is a total function (the embedding returns a value for
every environment, i.e. it never raises) and whenever any of its three
socket steps fails it returns the loopback literal. -/
theorem get_local_ip_fallback (env : LocalIpEnv)
    (h : (exceptFailed env.mkSock || exceptFailed env.connectRoute ||
          exceptFailed env.sockNameIp) = true) :
    get_local_ip env = "127.0.0.1" := by
  rcases env with ⟨ms, cr, sn⟩
  cases ms <;> cases cr <;> cases sn <;> simp_all [get_local_ip, exceptFailed]

theorem get_local_ip_fallback_witness :
    (exceptFailed envNoRoute.mkSock || exceptFailed envNoRoute.connectRoute ||
     exceptFailed envNoRoute.sockNameIp) = true
    ∧ get_local_ip envNoRoute = "127.0.0.1" :=
  ⟨rfl, get_local_ip_fallback envNoRoute rfl⟩

/-- C6 counterexample: with every HTTP endpoint down, the operation trace
of both get_public_ip variants consists solely of HTTP requests - it
contains no UDP discovery query at all, and the result is None - refuting
the claim that a UDP discovery phase precedes the HTTP fallback. -/
theorem get_public_ip_no_discovery_cex :
    get_public_ip httpDown
      = (none, [NetOp.httpGet "https://api.ipify.org",
                NetOp.httpGet "https://api64.ipify.org"])
    ∧ (get_public_ip httpDown).2.countP isUdp = 0
    ∧ get_public_ip_chat httpDown
      = (none, [NetOp.httpGet "https://api.ipify.org"]) :=
  ⟨rfl, rfl, rfl⟩

/-- C6 (amended): for every environment, neither variant of get_public_ip
ever performs a UDP discovery query; KomoChat.py returns the first HTTP
endpoint that answers (api.ipify.org, then api64.ipify.org) or None, and
Chat.py returns the single api.ipify.org answer or None. -/
theorem get_public_ip_http_only (env : PublicIpEnv) :
    (get_public_ip env).2.countP isUdp = 0
    ∧ (get_public_ip_chat env).2.countP isUdp = 0
    ∧ (get_public_ip env).1
        = ((env.http "https://api.ipify.org").orElse
            (fun _ => env.http "https://api64.ipify.org"))
    ∧ (get_public_ip_chat env).1 = env.http "https://api.ipify.org" := by
  cases h1 : env.http "https://api.ipify.org" <;>
    cases h2 : env.http "https://api64.ipify.org" <;>
      simp [get_public_ip, get_public_ip_chat, h1, h2, isUdp, Option.orElse]

/-- C7 counterexample: the end-session command, one of the local commands
the claim says are never transmitted, does write the reserved literal to
the socket: the loop body for the input /exit sends /exit before breaking,
so the outgoing stream is not unchanged. -/
theorem chat_exit_transmits_cex :
    chatStep "/exit" = (["/exit"], false) := by decide

/-- C7 (amended): in the KomoChat.py chat_session loop, every input whose
stripped, lowercased form is one of /clear, /help, /time, /emoji or
/status is intercepted locally - nothing is sent and the loop continues;
in the Chat.py start_chat_session loop the same holds for /clear, /help,
/time and /status only, while an /emoji input falls through and is
transmitted to the peer as ordinary text; in both loops the end-session
command /exit is intercepted as a command (the typed line is never
forwarded as user text) but transmits the reserved control literal before
terminating the loop. -/
theorem chat_local_commands (raw : String) :
    ((pyLower (pyStrip raw) == "/clear" || pyLower (pyStrip raw) == "/help" ||
      pyLower (pyStrip raw) == "/time" || pyLower (pyStrip raw) == "/emoji" ||
      pyLower (pyStrip raw) == "/status") = true → chatStep raw = ([], true))
    ∧ ((pyLower (pyStrip raw) == "/exit") = true
        → chatStep raw = (["/exit"], false))
    ∧ ((pyLower (pyStrip raw) == "/clear" || pyLower (pyStrip raw) == "/help" ||
        pyLower (pyStrip raw) == "/time" ||
        pyLower (pyStrip raw) == "/status") = true
        → chatStepChat raw = ([], true))
    ∧ ((pyLower (pyStrip raw) == "/exit") = true
        → chatStepChat raw = (["/exit"], false))
    ∧ ((pyLower (pyStrip raw) == "/emoji") = true
        → chatStepChat raw = ([pyStrip raw], true)) := by
  refine ⟨?_, ?_, ?_, ?_, ?_⟩
  · intro h
    simp only [Bool.or_eq_true, beq_iff_eq] at h
    obtain ((((h | h) | h) | h) | h) := h <;> (simp only [chatStep, h]; rfl)
  · intro h
    simp only [beq_iff_eq] at h
    simp only [chatStep, h]
    rfl
  · intro h
    simp only [Bool.or_eq_true, beq_iff_eq] at h
    obtain (((h | h) | h) | h) := h <;> (simp only [chatStepChat, h]; rfl)
  · intro h
    simp only [beq_iff_eq] at h
    simp only [chatStepChat, h]
    rfl
  · intro h
    simp only [beq_iff_eq] at h
    simp only [chatStepChat, h]
    rfl

theorem chat_local_commands_witness :
    chatStep "/CLEAR " = ([], true) ∧ chatStep "/Exit" = (["/exit"], false)
    ∧ chatStepChat "/TIME" = ([], true)
    ∧ chatStepChat "/exit" = (["/exit"], false)
    ∧ chatStepChat " /emoji" = (["/emoji"], true) :=
  ⟨(chat_local_commands "/CLEAR ").1 (by decide),
   (chat_local_commands "/Exit").2.1 (by decide),
   (chat_local_commands "/TIME").2.2.1 (by decide),
   (chat_local_commands "/exit").2.2.2.1 (by decide),
   (chat_local_commands " /emoji").2.2.2.2 (by decide)⟩

/-- C8: the prompt accepts an entry if and only if it should: every
accepted port lies in 1..65535; an entry parsing as an integer in that
range is accepted with that value; a nonempty entry that does not parse as
an integer is rejected (none, i.e. re-prompted); an entry parsing to an
out-of-range integer is rejected; and the empty entry is accepted with the
default 9999 (which lies in range). -/
theorem port_prompt_spec :
    (∀ (s : String) (p : Nat), portPromptStep s = some p → 1 ≤ p ∧ p ≤ 65535)
    ∧ (∀ (s : String) (n : Int), pyParseInt (pyStrip s) = some n →
        1 ≤ n → n ≤ 65535 → portPromptStep s = some n.toNat)
    ∧ (∀ s : String, (pyStrip s == "") = false →
        pyParseInt (pyStrip s) = none → portPromptStep s = none)
    ∧ (∀ (s : String) (n : Int), pyParseInt (pyStrip s) = some n →
        (n < 1 ∨ 65535 < n) → portPromptStep s = none)
    ∧ portPromptStep "" = some 9999 := by
  refine ⟨?_, ?_, ?_, ?_, by decide⟩
  · intro s p h
    simp only [portPromptStep] at h
    split at h
    · injection h with h1
      omega
    · split at h
      · split at h
        · rename_i hr
          injection h with h1
          omega
        · exact absurd h (by simp)
      · exact absurd h (by simp)
  · intro s n hp h1 h2
    have hne : (pyStrip s == "") = false := by
      cases hb : (pyStrip s == "") with
      | false => rfl
      | true =>
          exfalso
          have he : pyStrip s = "" := by simpa using hb
          rw [he] at hp
          exact absurd hp (by simp [pyParseInt])
    simp only [portPromptStep]
    rw [hne]
    simp [hp, h1, h2]
  · intro s hne hp
    simp only [portPromptStep]
    rw [hne, hp]
    rfl
  · intro s n hp hout
    have hne : (pyStrip s == "") = false := by
      cases hb : (pyStrip s == "") with
      | false => rfl
      | true =>
          exfalso
          have he : pyStrip s = "" := by simpa using hb
          rw [he] at hp
          exact absurd hp (by simp [pyParseInt])
    have hfalse : ¬(1 ≤ n ∧ n ≤ 65535) := by omega
    simp only [portPromptStep]
    rw [hne, hp]
    simp [hfalse]

theorem port_prompt_witness :
    (1 ≤ 8080 ∧ 8080 ≤ 65535)
    ∧ portPromptStep "8080" = some ((8080 : Int)).toNat
    ∧ portPromptStep "abc" = none
    ∧ portPromptStep "70000" = none :=
  ⟨port_prompt_spec.1 "8080" 8080 (by decide),
   port_prompt_spec.2.1 "8080" 8080 (by decide) (by decide) (by decide),
   port_prompt_spec.2.2.1 "abc" (by decide) (by decide),
   port_prompt_spec.2.2.2.1 "70000" 70000 (by decide) (Or.inr (by decide))⟩

/-- C9 counterexample: the payload 42 parses as JSON (a number, not an
object), yet receive_message returns it as literal text because the
msg_data.get call raises AttributeError inside the same try block -
refuting the claim that only non-JSON payloads are returned as literal
text. -/
theorem receive_message_json_literal_cex :
    receive_message_relay loadsNum "42" = some (PyJson.jstr "42")
    ∧ loadsNum "42" = some (PyJson.jnum 42) :=
  ⟨rfl, rfl⟩

/-- C9 (amended): on the relay path, a JSON object whose type field is not
the string message yields None (indistinguishable from a timeout); a
message envelope missing the content key yields the empty string; and a
payload that does not parse as a JSON object - whether json.loads fails or
yields a non-object value - is returned as literal text. -/
theorem receive_message_relay_spec (loads : String → Option PyJson)
    (data : String) (hne : (data == "") = false) :
    (loads data = none →
        receive_message_relay loads data = some (PyJson.jstr data))
    ∧ (∀ fields, loads data = some (PyJson.jobj fields) →
        typeIsMessage fields = false → receive_message_relay loads data = none)
    ∧ (∀ fields, loads data = some (PyJson.jobj fields) →
        typeIsMessage fields = true → dictGet fields "content" = none →
        receive_message_relay loads data = some (PyJson.jstr ""))
    ∧ (∀ j, loads data = some j → isObjPy j = false →
        receive_message_relay loads data = some (PyJson.jstr data)) := by
  refine ⟨?_, ?_, ?_, ?_⟩
  · intro h
    simp only [receive_message_relay, hne, h]
    rfl
  · intro fields hl ht
    simp only [receive_message_relay, hne, hl, ht]
    rfl
  · intro fields hl ht hc
    simp only [receive_message_relay, hne, hl, ht, hc]
    rfl
  · intro j hl hobj
    cases j <;> simp_all [receive_message_relay, isObjPy]

theorem receive_message_relay_spec_witness :
    (("\x7b\x7d" : String) == "") = false
    ∧ receive_message_relay loadsEmptyObj "\x7b\x7d" = none :=
  ⟨rfl, (receive_message_relay_spec loadsEmptyObj "\x7b\x7d" rfl).2.1 [] rfl rfl⟩

theorem accept_one_lengths (st : ServerState) (c : Nat) (nick : String) :
    (accept_one st c nick).clients.length = st.clients.length + 1
    ∧ (accept_one st c nick).nicknames.length = st.nicknames.length + 1 := by
  simp [accept_one]

theorem contains_mem {l : List Nat} {c : Nat} (hc : l.contains c = true) :
    c ∈ l := by
  simpa [List.contains] using hc

theorem nick_at_index (st : ServerState) (c : Nat) (h : lenEq st)
    (hmem : c ∈ st.clients) :
    ∃ nick, st.nicknames.get? (st.clients.indexOf c) = some nick := by
  cases hg : st.nicknames.get? (st.clients.indexOf c) with
  | some nick => exact ⟨nick, rfl⟩
  | none =>
      exfalso
      have hlen := List.get?_eq_none.mp hg
      have hidx := List.indexOf_lt_length.mpr hmem
      unfold lenEq at h
      omega

theorem remove_client_ok (st : ServerState) (c : Nat) (h : lenEq st) :
    isOkE (remove_client st c) = true := by
  unfold remove_client
  by_cases hc : st.clients.contains c = true
  · rw [if_pos hc]
    obtain ⟨nick, hn⟩ := nick_at_index st c h (contains_mem hc)
    rw [hn]
    rfl
  · rw [if_neg hc]
    rfl

theorem remove_client_lengths (st : ServerState) (c : Nat) (st' : ServerState)
    (h : lenEq st) (hr : remove_client st c = Except.ok st') :
    st'.clients.length = st'.nicknames.length
    ∧ st.clients.length
        = st'.clients.length + (if st.clients.contains c then 1 else 0)
    ∧ st.nicknames.length
        = st'.nicknames.length + (if st.clients.contains c then 1 else 0) := by
  unfold remove_client at hr
  by_cases hc : st.clients.contains c = true
  · rw [if_pos hc] at hr
    obtain ⟨nick, hn⟩ := nick_at_index st c h (contains_mem hc)
    rw [hn] at hr
    injection hr with hr'
    subst hr'
    have h1 := List.length_erase_add_one (contains_mem hc)
    have h2 := List.length_erase_add_one (List.get?_mem hn)
    unfold lenEq at h
    rw [if_pos hc]
    simp only []
    omega
  · rw [if_neg hc] at hr
    injection hr with hr'
    subst hr'
    rw [if_neg hc]
    unfold lenEq at h
    omega

theorem runOps_lenEq (ops : List ServerOp) (st st' : ServerState)
    (h : lenEq st) (hr : runOps ops st = Except.ok st') : lenEq st' := by
  induction ops generalizing st with
  | nil =>
      simp only [runOps] at hr
      injection hr with hr'
      subst hr'
      exact h
  | cons op ops ih =>
      simp only [runOps] at hr
      cases op with
      | join c nick =>
          simp only [applyOp] at hr
          refine ih (accept_one st c nick) ?_ hr
          unfold lenEq at h ⊢
          have := accept_one_lengths st c nick
          omega
      | disconnect c =>
          simp only [applyOp] at hr
          cases hrc : remove_client st c with
          | error e => rw [hrc] at hr; exact absurd hr (by simp)
          | ok st1 =>
              rw [hrc] at hr
              have hl := remove_client_lengths st c st1 h hrc
              exact ih st1 hl.1 hr

/-- C10: registration appends exactly one entry to each of the clients and
nicknames lists; under the equal-length invariant, remove_client never
raises and removes exactly one entry from each list when the client is
registered and neither entry when it is not; and the equal-length
invariant is preserved by every sequence of joins and disconnects
(broadcast mutates the lists only through remove_client). -/
theorem server_lists_equal_length :
    (∀ (st : ServerState) (c : Nat) (nick : String),
        (accept_one st c nick).clients.length = st.clients.length + 1
        ∧ (accept_one st c nick).nicknames.length = st.nicknames.length + 1)
    ∧ (∀ (st : ServerState) (c : Nat), lenEq st →
        isOkE (remove_client st c) = true)
    ∧ (∀ (st : ServerState) (c : Nat) (st' : ServerState), lenEq st →
        remove_client st c = Except.ok st' →
        st'.clients.length = st'.nicknames.length
        ∧ st.clients.length
            = st'.clients.length + (if st.clients.contains c then 1 else 0)
        ∧ st.nicknames.length
            = st'.nicknames.length + (if st.clients.contains c then 1 else 0))
    ∧ (∀ (ops : List ServerOp) (st st' : ServerState), lenEq st →
        runOps ops st = Except.ok st' → lenEq st') :=
  ⟨accept_one_lengths, remove_client_ok, remove_client_lengths, runOps_lenEq⟩

theorem server_lists_equal_length_witness :
    lenEq ⟨[1], ["bob"]⟩
    ∧ isOkE (remove_client ⟨[1], ["bob"]⟩ 1) = true
    ∧ (([] : List Nat).length = ([] : List String).length
        ∧ ([1] : List Nat).length
            = ([] : List Nat).length
              + (if ([1] : List Nat).contains 1 then 1 else 0)
        ∧ (["bob"] : List String).length
            = ([] : List String).length
              + (if ([1] : List Nat).contains 1 then 1 else 0))
    ∧ lenEq ⟨[], []⟩ := by
  refine ⟨rfl, server_lists_equal_length.2.1 ⟨[1], ["bob"]⟩ 1 rfl, ?_, ?_⟩
  · exact server_lists_equal_length.2.2.1 ⟨[1], ["bob"]⟩ 1 ⟨[], []⟩ rfl rfl
  · exact server_lists_equal_length.2.2.2 [ServerOp.disconnect 1]
      ⟨[1], ["bob"]⟩ ⟨[], []⟩ rfl rfl

end KomoChat
